import Mathlib

/-!
Shallow embedding of the transactional-update core (src/lib/Transaction.cpp
and src/lib/Configuration.cpp): the Transaction lifecycle, the mount-stack
assembly of Transaction::mount, the destructor's cleanup, finalize/keep,
and the fork/chroot/exec/waitpid behaviour of Transaction::execute.

External collaborators (the Mount/BindMount classes, the Overlay class and
the snapshot backend) are not part of the two source files; where their
behaviour matters they are modelled from the spec as opaque-to-us function
parameters or explicit state fields, and each such definition carries a
comment saying so.
-/

namespace TransactionalUpdate

/-! ## Configuration (src/lib/Configuration.cpp) -/

/-- Built-in configuration defaults set in Configuration::Configuration(). -/
def configDefaults : List (String × String) :=
  [("DRACUT_SYSROOT", "/sysroot"),
   ("LOCKFILE", "/var/run/transactional-update.pid"),
   ("OVERLAY_DIR", "/var/lib/overlay")]

/-- Configuration::get: look a key up; `none` models the thrown
runtime_error when the key is missing. -/
def configGet (key : String) : Option String :=
  (configDefaults.find? (fun p => p.1 == key)).map Prod.snd

/-! ## Mount entries (contract of the Mount/BindMount collaborators) -/

/-- A mount entry is either a plain mount (class Mount) or a recursive
bind mount (class BindMount). -/
inductive MountKind
  | plain
  | bind
deriving DecidableEq, Repr

/-- One entry of Transaction::dirsToMount: target path, kind, and the
type/source/flags set via setType/setSource/ the BindMount constructor. -/
structure MountEntry where
  target : String
  kind : MountKind
  fsType : Option String
  source : Option String
  flags : Nat
deriving DecidableEq, Repr

/-- Mount{path}: a plain mount entry for a target path. -/
def Mount (target : String) : MountEntry :=
  { target := target, kind := MountKind.plain, fsType := none,
    source := none, flags := 0 }

/-- BindMount{path, flags}: a (recursive) bind mount entry. -/
def BindMount (target : String) (flags : Nat) : MountEntry :=
  { target := target, kind := MountKind.bind, fsType := none,
    source := none, flags := flags }

/-- Mount::setType. -/
def MountEntry.setType (m : MountEntry) (t : String) : MountEntry :=
  { m with fsType := some t }

/-- Mount::setSource. -/
def MountEntry.setSource (m : MountEntry) (s : String) : MountEntry :=
  { m with source := some s }

/-- Linux MS_REC mount flag, used for the final rebind of the snapshot. -/
def MS_REC : Nat := 16384

/-! ## Host environment probed by Transaction::mount -/

/-- The isMount()/getFS() answers of the host system that steer the
conditional branches of Transaction::mount. -/
structure HostEnv where
  varIsMount : Bool
  etcIsMount : Bool
  etcFS : String
  rootIsMount : Bool
  bootWritableIsMount : Bool

/-- Contents of the two fstab files that the /etc overlay branch touches:
the snapshot's /etc/fstab and the fstab inside the overlay's upper
directory; `none` means the file does not exist. -/
structure FsState where
  snapFstab : Option String
  upperFstab : Option String

/-- Modelled from the spec: behaviour of the external Overlay collaborator
and of Mount::persist, which are not in the two source files.
`overlaySource` is Overlay::updateMountDirs rewriting the /etc entry's
source (argument: the optional sysroot override); `persistRender` is
Mount::persist producing the new content of the target fstab file from the
entry and the file's previous content; `syncFstab` is the effect of
Overlay::sync on the snapshot's /etc/fstab content, given the upper
directory's fstab content. -/
structure EtcOps where
  overlaySource : Option String → String
  persistRender : MountEntry → Option String → String
  syncFstab : String → Option String → String

/-- The /etc overlay branch of Transaction::mount (lines 74-91): if /etc is
mounted with filesystem type "overlay", rewrite the entry for the sysroot,
persist it into the snapshot's /etc/fstab, rewrite it for the overlay's own
paths, sync the overlay into the snapshot root, queue the entry, and
finally copy the snapshot's /etc/fstab into the overlay's upper directory
(filesystem::copy with overwrite_existing). -/
def etcBranch (env : HostEnv) (ops : EtcOps) (dirs : List MountEntry)
    (fs0 : FsState) : List MountEntry × FsState :=
  if env.etcIsMount && env.etcFS == "overlay" then
    let mntEtc := Mount "/etc"
    let mntEtc := mntEtc.setSource (ops.overlaySource (configGet "DRACUT_SYSROOT"))
    let fs1 : FsState := { fs0 with snapFstab := some (ops.persistRender mntEtc fs0.snapFstab) }
    let mntEtc := mntEtc.setSource (ops.overlaySource none)
    let fs2 : FsState := { fs1 with snapFstab := fs1.snapFstab.map (fun c => ops.syncFstab c fs1.upperFstab) }
    let dirs := dirs ++ [mntEtc]
    let fs3 : FsState := { fs2 with upperFstab := fs2.snapFstab }
    (dirs, fs3)
  else
    (dirs, fs0)

/-- Result of Transaction::mount: the assembled dirsToMount queue (in
actuation order; the final rebind of the snapshot root into the temporary
bind directory is appended last), the bind directory, and the fstab file
state. -/
structure MountOutcome where
  dirsToMount : List MountEntry
  bindDir : String
  fs : FsState

/-- Transaction::mount (lines 65-124), statement by statement. `tmpDir` is
the directory name produced by mkdtemp, `snapRoot` the snapshot's root. -/
def mountAssembly (env : HostEnv) (ops : EtcOps) (snapRoot tmpDir : String)
    (fs0 : FsState) : MountOutcome :=
  let dirs : List MountEntry := []
  let dirs := dirs ++ [BindMount "/dev" 0]
  let dirs := dirs ++ [BindMount "/var/log" 0]
  let dirs := if env.varIsMount then
      dirs ++ [BindMount "/var/cache" 0, BindMount "/var/lib/alternatives" 0]
    else dirs
  let p := etcBranch env ops dirs fs0
  let dirs := p.1
  let fs := p.2
  let mntProc := (Mount "/proc").setType "proc"
  let mntProc := mntProc.setSource "none"
  let dirs := dirs ++ [mntProc]
  let mntSys := (Mount "/sys").setType "sysfs"
  let mntSys := mntSys.setSource "sys"
  let dirs := dirs ++ [mntSys]
  let dirs := if env.rootIsMount then dirs ++ [BindMount "/root" 0] else dirs
  let dirs := if env.bootWritableIsMount then dirs ++ [BindMount "/boot/writable" 0] else dirs
  let dirs := dirs ++ [BindMount "/.snapshots" 0]
  let mntBind := BindMount tmpDir MS_REC
  let mntBind := mntBind.setSource snapRoot
  let dirs := dirs ++ [mntBind]
  { dirsToMount := dirs, bindDir := tmpDir, fs := fs }

/-! ## Snapshot handles and the backend -/

/-- Backend state of one snapshot handle: close() commits, abort()
discards; each is callable at most once. -/
inductive SnapStatus
  | opened
  | closed
  | aborted
deriving DecidableEq, Repr

/-- One snapshot handle: uid, read-only flag and lifecycle status. -/
structure Snapshot where
  uid : String
  readOnly : Bool
  status : SnapStatus
deriving DecidableEq, Repr

/-- Modelled from the spec: the SnapshotFactory/backend, which is not in
the two source files. `current`/`defaultId` are getCurrent/getDefault;
`roOf` gives the isReadOnly() flag of the snapshot a fresh handle opens by
id; `newUid` is the uid create(base) assigns; `newReadOnly` the created
snapshot's initial read-only flag. -/
structure Backend where
  current : String
  defaultId : String
  roOf : String → Bool
  newUid : String → String
  newReadOnly : Bool

/-! ## The Transaction object -/

/-- Transaction's data members: the optional exclusively-owned snapshot
handle, the dirsToMount vector, and the bindDir string. -/
structure Transaction where
  snapshot : Option Snapshot
  dirsToMount : List MountEntry
  bindDir : String

/-- Transaction::Transaction(): the default constructor only logs; all
members are default-initialized (no snapshot, empty vector, empty string). -/
def Transaction.defaultCtor : Transaction :=
  { snapshot := none, dirsToMount := [], bindDir := "" }

/-- Transaction::isInitialized: true iff the snapshot handle is held
(a pure query of the unique_ptr, no side effect). -/
def Transaction.isInitialized (t : Transaction) : Bool :=
  t.snapshot.isSome

/-- Transaction::getSnapshot returns snapshot->getUid(); the C++ code
dereferences the unique_ptr without a null check, so `none` marks the
absent-handle case in which the call is not well-defined. -/
def Transaction.getSnapshot (t : Transaction) : Option String :=
  t.snapshot.map Snapshot.uid

/-- Transaction::Transaction(uuid): obtain a fresh handle from the factory,
open the snapshot by uuid, then run mount assembly. -/
def Transaction.openCtor (b : Backend) (uuid : String) (env : HostEnv)
    (ops : EtcOps) (snapRoot tmpDir : String) (fs0 : FsState) : Transaction :=
  let snap : Snapshot := { uid := uuid, readOnly := b.roOf uuid, status := SnapStatus.opened }
  let m := mountAssembly env ops snapRoot tmpDir fs0
  { snapshot := some snap, dirsToMount := m.dirsToMount, bindDir := m.bindDir }

/-- Transaction::init(base): resolve the symbolic base names "active" and
"default" via the handle, create a snapshot derived from the resolved base,
then run mount assembly. -/
def Transaction.initT (b : Backend) (base : String) (env : HostEnv)
    (ops : EtcOps) (snapRoot tmpDir : String) (fs0 : FsState) : Transaction :=
  let base := if base == "active" then b.current
    else if base == "default" then b.defaultId
    else base
  let snap : Snapshot := { uid := b.newUid base, readOnly := b.newReadOnly, status := SnapStatus.opened }
  let m := mountAssembly env ops snapRoot tmpDir fs0
  { snapshot := some snap, dirsToMount := m.dirsToMount, bindDir := m.bindDir }

/-- Transaction::finalize (lines 174-183): close() the held snapshot, open
the backend's default snapshot, and if the default is read-only set the
just-committed snapshot read-only; then reset the handle. Returns the
detached Transaction together with the committed snapshot's final backend
state (for a Transaction with no handle the C++ call dereferences null;
that case returns `none`). -/
def Transaction.finalizeT (b : Backend) (t : Transaction) : Transaction × Option Snapshot :=
  match t.snapshot with
  | none => (t, none)
  | some s =>
    let s := { s with status := SnapStatus.closed }
    let s := if b.roOf b.defaultId then { s with readOnly := true } else s
    ({ t with snapshot := none }, some s)

/-- Transaction::keep: snapshot.reset() — release the handle without
closing or aborting. -/
def Transaction.keep (t : Transaction) : Transaction :=
  { t with snapshot := none }

/-! ## Destructor -/

/-- What Transaction::~Transaction did: whether the dirsToMount vector was
cleared, the temporary bind directory removed, the snapshot aborted, an
error caught and logged, and whether an exception escaped the destructor. -/
structure DtorResult where
  dirsCleared : Bool
  bindDirRemoved : Bool
  snapshotAborted : Bool
  errorLogged : Bool
  errorPropagated : Bool
deriving DecidableEq, Repr

/-- Transaction::~Transaction (lines 44-54): clear dirsToMount, then inside
one try block remove the bind directory and, if the handle is still held,
abort the snapshot; any exception from that block is caught and logged.
`removeFails` (resp. `abortFails`) says whether filesystem::remove_all
(resp. snapshot->abort()) throws. -/
def Transaction.destruct (t : Transaction) (removeFails abortFails : Bool) : DtorResult :=
  if removeFails then
    { dirsCleared := true, bindDirRemoved := false, snapshotAborted := false,
      errorLogged := true, errorPropagated := false }
  else if t.snapshot.isSome then
    if abortFails then
      { dirsCleared := true, bindDirRemoved := true, snapshotAborted := false,
        errorLogged := true, errorPropagated := false }
    else
      { dirsCleared := true, bindDirRemoved := true, snapshotAborted := true,
        errorLogged := false, errorPropagated := false }
  else
    { dirsCleared := true, bindDirRemoved := true, snapshotAborted := false,
      errorLogged := false, errorPropagated := false }

/-- Order in which dirsToMount.clear() destroys the mount entries: the
destructor relies on std::vector's element destruction, which releases the
elements from begin() to end() (libstdc++ std::_Destroy walks the range
forward). -/
def destroySeq : List MountEntry → List MountEntry
  | [] => []
  | m :: ms => m :: destroySeq ms

/-! ## Transaction::execute -/

/-- How the child process of execute() ended: normal exit with a code, or
termination by a signal. -/
inductive ChildOutcome
  | exited (code : Nat)
  | signaled (sig : Nat)
deriving DecidableEq, Repr

/-- The wait status word the kernel reports to waitpid: exit code in bits
8-15, termination signal in the low 7 bits. -/
def statusWord : ChildOutcome → Nat
  | ChildOutcome.exited c => (c % 256) * 256
  | ChildOutcome.signaled s => s % 128

/-- The WEXITSTATUS macro: bits 8-15 of the status word. -/
def WEXITSTATUS (status : Nat) : Nat := (status / 256) % 256

/-- SIGABRT, raised when an uncaught C++ exception terminates a process. -/
def SIGABRT : Nat := 6

/-- One call of execute(argv) either returns an int or throws a
runtime_error in the parent. -/
inductive ExecResult
  | ret (code : Nat)
  | err (msg : String)
deriving DecidableEq, Repr

/-- Environment of one execute() call: whether fork() fails, whether
chroot() fails in the child, whether argv[0] can be exec'd, the outcome of
the exec'd program, and whether waitpid() fails in the parent. -/
structure ExecEnv where
  forkFails : Bool
  chrootFails : Bool
  execFound : Bool
  progOutcome : ChildOutcome
  waitFails : Bool
deriving DecidableEq, Repr

/-- How the child of Transaction::execute ends: a failing chroot or a
failing execvp makes the child throw a runtime_error, which is uncaught in
the child and terminates it via std::terminate/abort — i.e. by SIGABRT;
otherwise the child becomes the exec'd program. -/
def childOutcome (env : ExecEnv) : ChildOutcome :=
  if env.chrootFails then ChildOutcome.signaled SIGABRT
  else if !env.execFound then ChildOutcome.signaled SIGABRT
  else env.progOutcome

/-- Transaction::execute (lines 137-172), parent side: a failing fork()
throws; otherwise the parent waits for the child, throws if waitpid fails,
and returns WEXITSTATUS of the collected status word. -/
def execute (env : ExecEnv) : ExecResult :=
  if env.forkFails then ExecResult.err "fork() failed"
  else
    let status := statusWord (childOutcome env)
    if env.waitFails then ExecResult.err "waitpid() failed"
    else ExecResult.ret (WEXITSTATUS status)

/-- Transaction::execute does not touch any Transaction data member (it
only reads bindDir), so as a state transformer it is the identity on the
Transaction paired with the call's result. -/
def Transaction.executeT (t : Transaction) (env : ExecEnv) : Transaction × ExecResult :=
  (t, execute env)

/-! ## Concrete fixtures used by witnesses and counterexamples -/

/-- A host with no extra mounts: /var not a separate mount, /etc not an
overlay, /root and /boot/writable not mounted. -/
def env0 : HostEnv :=
  { varIsMount := false, etcIsMount := false, etcFS := "",
    rootIsMount := false, bootWritableIsMount := false }

/-- A host whose /etc is mounted with filesystem type overlay. -/
def env1 : HostEnv :=
  { varIsMount := false, etcIsMount := true, etcFS := "overlay",
    rootIsMount := false, bootWritableIsMount := false }

/-- A concrete behaviour for the external Overlay/persist collaborators. -/
def ops0 : EtcOps :=
  { overlaySource := fun _ => "overlay",
    persistRender := fun _ _ => "overlay /etc overlay defaults 0 0",
    syncFstab := fun c _ => c }

/-- Both fstab files absent initially. -/
def fs00 : FsState := { snapFstab := none, upperFstab := none }

/-- The mount queue assembled on the plain host env0. -/
def dirs0 : List MountEntry :=
  (mountAssembly env0 ops0 "/.snapshots/5/snapshot" "/tmp/transactional-update-aaaaaa" fs00).dirsToMount

/-- A still-open snapshot handle with uid "5" whose read-only flag is set. -/
def snap5 : Snapshot := { uid := "5", readOnly := true, status := SnapStatus.opened }

/-- An Open Transaction holding snap5. -/
def t5 : Transaction :=
  { snapshot := some snap5, dirsToMount := dirs0,
    bindDir := "/tmp/transactional-update-aaaaaa" }

/-- A backend whose default snapshot "2" is not read-only. -/
def backend0 : Backend :=
  { current := "1", defaultId := "2", roOf := fun _ => false,
    newUid := fun _ => "6", newReadOnly := false }

/-- execute() environment for a run of /bin/true: everything succeeds and
the program exits 0. -/
def envTrue : ExecEnv :=
  { forkFails := false, chrootFails := false, execFound := true,
    progOutcome := ChildOutcome.exited 0, waitFails := false }

/-- execute() environment for /bin/false: the program exits 1. -/
def envFalse : ExecEnv := { envTrue with progOutcome := ChildOutcome.exited 1 }

/-- execute() environment for a non-existent executable: execvp fails in
the child. -/
def envNoExec : ExecEnv := { envTrue with execFound := false }

/-! ## Helper lemmas -/

/-- dirsToMount.clear() destroys every element, walking the vector from
begin() to end(): the destruction sequence is the list itself. -/
theorem destroySeq_eq (l : List MountEntry) : destroySeq l = l := by
  induction l with
  | nil => rfl
  | cons m ms ih => simp [destroySeq, ih]

/-- The assembled dirsToMount queue of Transaction::mount, flattened. -/
theorem mountAssembly_dirs_eq (env : HostEnv) (ops : EtcOps)
    (snapRoot tmpDir : String) (fs0 : FsState) :
    (mountAssembly env ops snapRoot tmpDir fs0).dirsToMount =
      [BindMount "/dev" 0, BindMount "/var/log" 0]
        ++ (if env.varIsMount then
              [BindMount "/var/cache" 0, BindMount "/var/lib/alternatives" 0]
            else [])
        ++ (if env.etcIsMount && env.etcFS == "overlay"
              then [(Mount "/etc").setSource (ops.overlaySource none)] else [])
        ++ [((Mount "/proc").setType "proc").setSource "none",
            ((Mount "/sys").setType "sysfs").setSource "sys"]
        ++ (if env.rootIsMount then [BindMount "/root" 0] else [])
        ++ (if env.bootWritableIsMount then [BindMount "/boot/writable" 0] else [])
        ++ [BindMount "/.snapshots" 0, (BindMount tmpDir MS_REC).setSource snapRoot] := by
  unfold mountAssembly etcBranch
  cases hv : env.varIsMount <;>
    cases he : env.etcIsMount && (env.etcFS == "overlay") <;>
      cases hr : env.rootIsMount <;>
        cases hb : env.bootWritableIsMount <;>
          simp [hv, he, hr, hb, Mount, MountEntry.setSource, MountEntry.setType]

/-! ## Claim theorems -/

/-- C1, counterexample: on an Open Transaction whose bind-directory removal
throws, the destructor's single try block jumps to the catch before
reaching the abort, so the snapshot is NOT aborted — refuting "a failure
while removing the bind directory does not prevent the snapshot abort". -/
theorem dtor_removeFail_skips_abort_cex :
    Transaction.isInitialized t5 = true
    ∧ (Transaction.destruct t5 true false).snapshotAborted = false
    ∧ (Transaction.destruct t5 true false).errorPropagated = false := by
  exact ⟨rfl, rfl, rfl⟩

/-- C1, amended: the destructor removes the bind directory and, when the
snapshot handle is still held and the removal did not throw, aborts the
snapshot; every cleanup error is caught and logged and never propagates out
of the destructor; but a failure while removing the bind directory skips
the snapshot abort, because removal and abort share one try block. -/
theorem dtor_cleanup_behaviour (t : Transaction) (removeFails abortFails : Bool) :
    (t.destruct removeFails abortFails).errorPropagated = false
    ∧ (t.destruct removeFails abortFails).dirsCleared = true
    ∧ (t.destruct removeFails abortFails).bindDirRemoved = !removeFails
    ∧ (t.destruct removeFails abortFails).snapshotAborted
        = (!removeFails && (t.isInitialized && !abortFails))
    ∧ (t.destruct removeFails abortFails).errorLogged
        = (removeFails || (t.isInitialized && abortFails)) := by
  cases removeFails <;> cases abortFails <;> cases h : t.snapshot.isSome <;>
    simp [Transaction.destruct, Transaction.isInitialized, h]

/-- C2, counterexample: the destructor tears the mount stack down via
dirsToMount.clear(), which destroys the entries front to back, so on the
concrete mount queue dirs0 the teardown sequence is not the reverse of the
actuation sequence. -/
theorem teardown_not_reverse_cex : destroySeq dirs0 ≠ dirs0.reverse := by
  decide

/-- C2, amended: for every Transaction with a non-empty assembled mount
stack, teardown at destruction destroys the mount entries in exactly the
actuation order (vector::clear walks begin() to end()): /dev is torn down
first and the final rebind last — not in reverse order. -/
theorem teardown_in_actuation_order (env : HostEnv) (ops : EtcOps)
    (snapRoot tmpDir : String) (fs0 : FsState) :
    destroySeq (mountAssembly env ops snapRoot tmpDir fs0).dirsToMount
        = (mountAssembly env ops snapRoot tmpDir fs0).dirsToMount
    ∧ ((mountAssembly env ops snapRoot tmpDir fs0).dirsToMount).head?
        = some (BindMount "/dev" 0)
    ∧ ((mountAssembly env ops snapRoot tmpDir fs0).dirsToMount).getLast?
        = some ((BindMount tmpDir MS_REC).setSource snapRoot) := by
  refine ⟨destroySeq_eq _, ?_, ?_⟩
  · rw [mountAssembly_dirs_eq]
    rfl
  · rw [mountAssembly_dirs_eq]
    rw [List.getLast?_append_cons]
    rfl

/-- C3, counterexample: finalize() only copies the default snapshot's
read-only flag when that flag is true; with a read-only committed snapshot
and a writable default snapshot the flags end up different, refuting
"copies that flag's value ... whether that flag is true or false". -/
theorem finalize_readonly_not_copied_cex :
    backend0.roOf backend0.defaultId = false
    ∧ ((Transaction.finalizeT backend0 t5).2.map Snapshot.readOnly) = some true := by
  exact ⟨rfl, rfl⟩

/-- C3, amended: for every Open Transaction, finalize() commits the held
snapshot via close(), then reads the read-only flag of the system's
default snapshot and sets the just-committed snapshot read-only if that
flag is true (leaving the committed snapshot's flag unchanged otherwise),
then releases the snapshot handle so isInitialized() becomes false. -/
theorem finalize_commits_and_detaches (b : Backend) (t : Transaction)
    (s : Snapshot) (h : t.snapshot = some s) :
    (Transaction.finalizeT b t).2
        = some { s with status := SnapStatus.closed,
                        readOnly := s.readOnly || b.roOf b.defaultId }
    ∧ Transaction.isInitialized (Transaction.finalizeT b t).1 = false := by
  cases hb : b.roOf b.defaultId <;>
    simp [Transaction.finalizeT, Transaction.isInitialized, h, hb]

/-- C3 witness: the amended finalize behaviour at the concrete Open
Transaction t5 against backend0. -/
theorem finalize_commits_and_detaches_witness :
    (Transaction.finalizeT backend0 t5).2
        = some { snap5 with status := SnapStatus.closed,
                            readOnly := snap5.readOnly || backend0.roOf backend0.defaultId }
    ∧ Transaction.isInitialized (Transaction.finalizeT backend0 t5).1 = false :=
  finalize_commits_and_detaches backend0 t5 snap5 rfl

/-- C4, counterexample: execute() with a non-existent executable path does
return a numeric status (0) to the caller — the runtime_error is thrown in
the forked child, terminates only the child, and the parent returns
WEXITSTATUS of the child's signal-termination status — refuting "raises a
ResourceError to the caller rather than returning any numeric status". -/
theorem execute_noexec_returns_status_cex :
    execute envNoExec = ExecResult.ret 0 := by
  decide

/-- C4, amended: execute of /bin/true returns 0 and execute of /bin/false
returns the non-zero status 1; execute with a non-existent executable path
does not raise an error in the caller: the child aborts (its uncaught
runtime_error terminates it by SIGABRT) and execute returns WEXITSTATUS of
that signal status, which is 0 — and this holds for every environment in
which fork and waitpid succeed but the executable is not found. -/
theorem execute_outcomes :
    execute envTrue = ExecResult.ret 0
    ∧ execute envFalse = ExecResult.ret 1
    ∧ childOutcome envNoExec = ChildOutcome.signaled SIGABRT
    ∧ execute envNoExec = ExecResult.ret 0
    ∧ (∀ env : ExecEnv, env.forkFails = false → env.waitFails = false →
        env.execFound = false → execute env = ExecResult.ret 0) := by
  refine ⟨rfl, rfl, rfl, rfl, ?_⟩
  intro env hf hw he
  cases hc : env.chrootFails <;>
    simp [execute, childOutcome, statusWord, WEXITSTATUS, SIGABRT, hf, hw, he, hc]

/-- C5: the assembled mount sequence is, in order, /dev, /var/log, then
(if and only if /var is itself a mount on the host) /var/cache and
/var/lib/alternatives, then the conditional /etc overlay entry, /proc,
/sys, conditional /root and /boot/writable, ending with /.snapshots
followed by the final rebind entry as the last element. -/
theorem mount_stack_order (env : HostEnv) (ops : EtcOps)
    (snapRoot tmpDir : String) (fs0 : FsState) :
    (mountAssembly env ops snapRoot tmpDir fs0).dirsToMount =
      [BindMount "/dev" 0, BindMount "/var/log" 0]
        ++ (if env.varIsMount then
              [BindMount "/var/cache" 0, BindMount "/var/lib/alternatives" 0]
            else [])
        ++ (if env.etcIsMount && env.etcFS == "overlay"
              then [(Mount "/etc").setSource (ops.overlaySource none)] else [])
        ++ [((Mount "/proc").setType "proc").setSource "none",
            ((Mount "/sys").setType "sysfs").setSource "sys"]
        ++ (if env.rootIsMount then [BindMount "/root" 0] else [])
        ++ (if env.bootWritableIsMount then [BindMount "/boot/writable" 0] else [])
        ++ [BindMount "/.snapshots" 0, (BindMount tmpDir MS_REC).setSource snapRoot]
    ∧ (BindMount "/var/cache" 0 ∈ (mountAssembly env ops snapRoot tmpDir fs0).dirsToMount
        ↔ env.varIsMount = true)
    ∧ (BindMount "/var/lib/alternatives" 0 ∈ (mountAssembly env ops snapRoot tmpDir fs0).dirsToMount
        ↔ env.varIsMount = true) := by
  refine ⟨mountAssembly_dirs_eq env ops snapRoot tmpDir fs0, ?_, ?_⟩ <;>
    · rw [mountAssembly_dirs_eq]
      cases hv : env.varIsMount <;>
        cases he : env.etcIsMount && (env.etcFS == "overlay") <;>
          cases hr : env.rootIsMount <;>
            cases hb : env.bootWritableIsMount <;>
              simp [hv, he, hr, hb, Mount, BindMount, MountEntry.setSource,
                MountEntry.setType, MS_REC]

/-- C6: whenever fork and waitpid succeed, execute blocks on waitpid and
returns WEXITSTATUS of the collected status word, a value below 256; a
child that exited with code c yields c mod 256; and the returned value
does not distinguish signal termination from exit-code termination: an
environment whose program is killed by any signal returns exactly what the
same environment returns for a program exiting 0. -/
theorem execute_status_decoding (env : ExecEnv)
    (hf : env.forkFails = false) (hw : env.waitFails = false) :
    execute env = ExecResult.ret (WEXITSTATUS (statusWord (childOutcome env)))
    ∧ WEXITSTATUS (statusWord (childOutcome env)) < 256
    ∧ (∀ c : Nat, childOutcome env = ChildOutcome.exited c →
        execute env = ExecResult.ret (c % 256))
    ∧ (∀ s : Nat,
        execute { env with progOutcome := ChildOutcome.signaled s }
          = execute { env with progOutcome := ChildOutcome.exited 0 }) := by
  refine ⟨?_, ?_, ?_, ?_⟩
  · simp [execute, hf, hw]
  · exact Nat.mod_lt _ (by norm_num)
  · intro c hc
    simp [execute, hf, hw, hc, statusWord, WEXITSTATUS]
  · intro s
    cases hc : env.chrootFails <;> cases hx : env.execFound <;>
      simp [execute, childOutcome, statusWord, WEXITSTATUS, hf, hw, hc, hx] <;>
        omega

/-- C6 witness: the status decoding at the concrete /bin/true environment. -/
theorem execute_status_decoding_witness :
    execute envTrue = ExecResult.ret (WEXITSTATUS (statusWord (childOutcome envTrue)))
    ∧ WEXITSTATUS (statusWord (childOutcome envTrue)) < 256 :=
  ⟨(execute_status_decoding envTrue rfl rfl).1,
   (execute_status_decoding envTrue rfl rfl).2.1⟩

/-- C7: isInitialized() is true immediately after construction via init()
or the open-by-uuid constructor; querying it (or calling execute) has no
side effect on the Transaction; after finalize() or keep() it is false;
and it is true exactly when a Snapshot handle is held. -/
theorem isInitialized_lifecycle (b : Backend) (base uuid : String)
    (env : HostEnv) (ops : EtcOps) (snapRoot tmpDir : String) (fs0 : FsState)
    (t : Transaction) (e : ExecEnv) :
    Transaction.isInitialized (Transaction.initT b base env ops snapRoot tmpDir fs0) = true
    ∧ Transaction.isInitialized (Transaction.openCtor b uuid env ops snapRoot tmpDir fs0) = true
    ∧ (Transaction.executeT t e).1 = t
    ∧ Transaction.isInitialized (Transaction.keep t) = false
    ∧ Transaction.isInitialized (Transaction.finalizeT b t).1 = false
    ∧ (Transaction.isInitialized t = true ↔ t.snapshot ≠ none) := by
  cases ht : t.snapshot <;>
    simp [Transaction.isInitialized, Transaction.initT, Transaction.openCtor,
      Transaction.executeT, Transaction.keep, Transaction.finalizeT, ht]

/-- C8: after a mount assembly in which /etc is mounted with filesystem
type overlay, the snapshot's /etc/fstab exists and its content is
byte-identical to the content of the fstab file in the overlay's upper
directory — the branch ends by copying the snapshot's fstab over the upper
directory's copy. -/
theorem etc_overlay_fstab_roundtrip (env : HostEnv) (ops : EtcOps)
    (snapRoot tmpDir : String) (fs0 : FsState)
    (hm : env.etcIsMount = true) (hfs : env.etcFS = "overlay") :
    (mountAssembly env ops snapRoot tmpDir fs0).fs.upperFstab
        = (mountAssembly env ops snapRoot tmpDir fs0).fs.snapFstab
    ∧ ((mountAssembly env ops snapRoot tmpDir fs0).fs.snapFstab).isSome = true := by
  simp [mountAssembly, etcBranch, hm, hfs]

/-- C8 witness: the fstab round-trip on the concrete overlay host env1. -/
theorem etc_overlay_fstab_roundtrip_witness :
    (mountAssembly env1 ops0 "/.snapshots/6/snapshot" "/tmp/transactional-update-bbbbbb" fs00).fs.upperFstab
        = (mountAssembly env1 ops0 "/.snapshots/6/snapshot" "/tmp/transactional-update-bbbbbb" fs00).fs.snapFstab
    ∧ ((mountAssembly env1 ops0 "/.snapshots/6/snapshot" "/tmp/transactional-update-bbbbbb" fs00).fs.snapFstab).isSome = true :=
  etc_overlay_fstab_roundtrip env1 ops0 "/.snapshots/6/snapshot" "/tmp/transactional-update-bbbbbb" fs00 rfl rfl

/-- C9: after finalize() completes on an Open Transaction the handle is
absent: getSnapshot has no uid to return, isInitialized is false, and
destruction of the detached Transaction never aborts the snapshot,
whatever the cleanup outcomes. -/
theorem finalize_then_detached (b : Backend) (t : Transaction) (s : Snapshot)
    (h : t.snapshot = some s) (removeFails abortFails : Bool) :
    Transaction.getSnapshot (Transaction.finalizeT b t).1 = none
    ∧ Transaction.isInitialized (Transaction.finalizeT b t).1 = false
    ∧ ((Transaction.finalizeT b t).1.destruct removeFails abortFails).snapshotAborted = false := by
  cases hb : b.roOf b.defaultId <;>
    cases removeFails <;> cases abortFails <;>
      simp [Transaction.finalizeT, Transaction.isInitialized,
        Transaction.getSnapshot, Transaction.destruct, h, hb]

/-- C9 witness: the detached behaviour after finalizing t5 on backend0. -/
theorem finalize_then_detached_witness :
    Transaction.getSnapshot (Transaction.finalizeT backend0 t5).1 = none
    ∧ Transaction.isInitialized (Transaction.finalizeT backend0 t5).1 = false
    ∧ ((Transaction.finalizeT backend0 t5).1.destruct false false).snapshotAborted = false :=
  finalize_then_detached backend0 t5 snap5 rfl false false

/-- C10: getSnapshot() succeeds exactly when the snapshot handle is held
(isInitialized true) — the C++ body dereferences the handle with no null
check — and on a default-constructed or detached (keep/finalize)
Transaction the handle is absent, so the call has no uid to return and the
precondition isInitialized is required for it to be safe. -/
theorem getSnapshot_requires_handle :
    (∀ t : Transaction, (Transaction.getSnapshot t).isSome = Transaction.isInitialized t)
    ∧ Transaction.getSnapshot Transaction.defaultCtor = none
    ∧ (∀ t : Transaction, Transaction.getSnapshot (Transaction.keep t) = none)
    ∧ (∀ b : Backend, ∀ t : Transaction,
        Transaction.getSnapshot (Transaction.finalizeT b t).1 = none) := by
  refine ⟨?_, rfl, ?_, ?_⟩
  · intro t
    cases ht : t.snapshot <;> simp [Transaction.getSnapshot, Transaction.isInitialized, ht]
  · intro t
    simp [Transaction.getSnapshot, Transaction.keep]
  · intro b t
    cases ht : t.snapshot <;> simp [Transaction.finalizeT, Transaction.getSnapshot, ht]

end TransactionalUpdate
